import Mathlib

/-!
Verification development for the presto-stream-client library
(src/lib/index.js).  The JavaScript source is shallowly embedded: the pure
helpers (convertToCSV, the column-name deduplication and object-mode record
construction of Statement._run, the response classification performed by
makeRequest, Client.kill and Statement.cancel, and the info-fetch tail of
Statement._run) become Lean functions, and the event-driven fetch loop of a
Statement becomes an explicit small-step transition system over a record of
the statement's mutable fields.  All definitions are translated from the
source file; line numbers in the doc comments refer to src/lib/index.js.
-/

/-- JSON values as produced by the injected jsonParser (the pluggable JSON
codec of the client).  Numeric values are modelled as integers, which covers
every value the claims exercise. -/
inductive JsonVal where
  | null
  | bool (b : Bool)
  | num (n : Int)
  | str (s : String)
  | arr (xs : List JsonVal)
  | obj (fields : List (String × JsonVal))

/-- JavaScript runtime values as convertToCSV receives a cell: typeof
distinguishes number, object (null or a structured value) and everything
else; undefined occurs when a data row is shorter than the column list. -/
inductive JSVal where
  | num (n : Int)
  | str (s : String)
  | bool (b : Bool)
  | undef
  | null
  | obj (o : JsonVal)

/-- The global regex replace on lines 49 and 52, character by character:
every double quote in the string is doubled. -/
def csvEscapeChars : List Char → List Char
  | [] => []
  | c :: rest =>
    if c = '\"' then '\"' :: '\"' :: csvEscapeChars rest
    else c :: csvEscapeChars rest

/-- The global regex replace on lines 49 and 52: every double quote in the
string is doubled. -/
def csvEscape (s : String) : String := String.mk (csvEscapeChars s.data)

/-- convertToCSV (lines 41-54).  A number is returned bare (the value is a
JS number; joining with commas renders its decimal text).  typeof null is
object, so a null cell yields an empty quoted string; any other object is
serialized with the injected jsonParser and quoted with inner quotes
doubled; the default branch stringifies the value and quotes it likewise
(String(undefined) is the text undefined, String of a boolean is its
lowercase name). -/
def convertToCSV (input : JSVal) (stringify : JsonVal → String) : String :=
  match input with
  | .num n => toString n
  | .null => "\"\""
  | .obj o => "\"" ++ csvEscape (stringify o) ++ "\""
  | .str s => "\"" ++ csvEscape s ++ "\""
  | .bool b => "\"" ++ csvEscape (if b then "true" else "false") ++ "\""
  | .undef => "\"" ++ csvEscape "undefined" ++ "\""

/-- State built by the first deduplication pass of Statement._run
(lines 498-505): the set of names already seen and the map of duplicate
names to their running counter. -/
structure DupPass where
  uniqueColumns : List String
  duplicates : List (String × Nat)
deriving DecidableEq

/-- Lookup in the duplicates map (the hasOwnProperty test plus read on
lines 509-510). -/
def dupGet (m : List (String × Nat)) (k : String) : Option Nat :=
  match m with
  | [] => none
  | (k1, v) :: rest => if k1 = k then some v else dupGet rest k

/-- Assignment into the duplicates map (lines 501 and 511). -/
def dupSet (m : List (String × Nat)) (k : String) (v : Nat) : List (String × Nat) :=
  match m with
  | [] => [(k, v)]
  | (k1, v1) :: rest => if k1 = k then (k, v) :: rest else (k1, v1) :: dupSet rest k v

/-- First pass over the column names (lines 498-505): a name already in the
seen set is marked in the duplicates map with counter 1 (re-marking a name
seen three or more times writes 1 again); otherwise the name is added to
the seen set. -/
def markDuplicates (cols : List String) : DupPass :=
  cols.foldl
    (fun st name =>
      if st.uniqueColumns.contains name then
        { st with duplicates := dupSet st.duplicates name 1 }
      else
        { st with uniqueColumns := st.uniqueColumns ++ [name] })
    ⟨[], []⟩

/-- Second pass (lines 507-513): every column whose name is a key of the
duplicates map - including the first occurrence - has an underscore and the
current counter appended, and the counter is incremented. -/
def renameDuplicates (dups : List (String × Nat)) : List String → List String
  | [] => []
  | c :: rest =>
    match dupGet dups c with
    | some n => (c ++ "_" ++ toString n) :: renameDuplicates (dupSet dups c (n + 1)) rest
    | none => c :: renameDuplicates dups rest

/-- Column-name deduplication in object mode (Statement._run lines
497-514): run the marking pass, and only if duplicates were detected walk
the column list renaming.  Only the name field of a column record is
involved, so columns are modelled by their names. -/
def dedupColumns (cols : List String) : List String :=
  let st := markDuplicates cols
  if st.duplicates.isEmpty then cols else renameDuplicates st.duplicates cols

/-- Indexing a data row (line 527): an index past the end of the row reads
undefined. -/
def rowGet (row : List JSVal) (y : Nat) : JSVal := (row.get? y).getD JSVal.undef

/-- JavaScript property assignment on the output object (line 527): an
existing key keeps its position and is overwritten, a new key is appended. -/
def objSet (o : List (String × JSVal)) (k : String) (v : JSVal) : List (String × JSVal) :=
  match o with
  | [] => [(k, v)]
  | (k1, v1) :: rest => if k1 = k then (k, v) :: rest else (k1, v1) :: objSet rest k v

/-- Object-mode record construction (lines 524-529): for each column index
y the cell row[y] is stored under the (possibly deduplicated) column
name. -/
def buildRecord (colNames : List String) (row : List JSVal) : List (String × JSVal) :=
  colNames.enum.foldl (fun o p => objSet o p.2 (rowGet row p.1)) []

/-- The error class prestoError (lines 23-39): the message plus whichever of
the data, response_code and response_type properties the props argument
carried.  When makeRequest constructs one from the buffered response
(lines 107 and 110), props is the resolved response object, so data is the
raw body string, and response_code and response_type are the status code
and content-type header. -/
structure prestoError where
  message : String
  data : Option String := none
  response_code : Option Nat := none
  response_type : Option (Option String) := none
deriving DecidableEq

/-- The name property of a prestoError (lines 26 and 32): the class name,
extended with the response code when one was attached. -/
def prestoErrorName (e : prestoError) : String :=
  match e.response_code with
  | some c => "prestoError: code " ++ toString c
  | none => "prestoError"

/-- The response object that makeRequest resolves once the body is fully
buffered (lines 72-77): status code, the concatenated body chunks, the
content-type header, and the set-session / clear-session response headers.
Headers may be absent, hence the Option types. -/
structure RawResponse where
  response_code : Nat
  data : String
  response_type : Option String
  session : Option String
  clear_session : Option String
deriving DecidableEq

/-- The successful callback payload of makeRequest (lines 91, 95-104):
status code, parsed data, and the session / clear_session outputs that
lines 98-102 would attach. -/
structure OkOutput where
  response_code : Nat
  data : JsonVal
  session : Option String := none
  clear_session : Bool := false

/-- Result of the classification step of makeRequest: retry the identical
request (the 503 branch on lines 85-88), invoke the callback with a
successful output, or invoke it with a prestoError. -/
inductive RequestOutcome where
  | retry
  | ok (o : OkOutput)
  | err (e : prestoError)

/-- The retry test on line 85 reads response.code, but the resolved
response object (lines 72-77) has no field named code: the JavaScript
expression response.code === 503 compares undefined with 503 and is
therefore false for every response, whatever its status code. -/
def retry503Check (_r : RawResponse) : Bool := false

/-- Line 96 tests response.data.updateType === true, where response.data
is the raw body string: a string has no updateType property, so the test
compares undefined with true and is false for every response. -/
def updateTypeCheck (_rawBody : String) : Bool := false

/-- The classification continuation of makeRequest (lines 84-111), applied
to the buffered response.  The injected jsonParser.parse is modelled as a
function returning none exactly when parsing would throw.  A response
whose content type is not application/json or whose body is shorter than
two characters succeeds with an empty-object payload; other sub-300
responses are parsed, with a parse failure reported as an unintelligible
response; responses of 300 and above are reported as an invalid response
code. -/
def makeRequestHandle (parse : String → Option JsonVal) (r : RawResponse) :
    RequestOutcome :=
  if retry503Check r then .retry
  else if r.response_code < 300 then
    if r.response_type ≠ some "application/json" ∨ r.data.length < 2 then
      .ok { response_code := r.response_code, data := JsonVal.obj [] }
    else
      match parse r.data with
      | some d =>
        if updateTypeCheck r.data then
          match r.session with
          | some sess => .ok { response_code := r.response_code, data := d, session := some sess }
          | none => .ok { response_code := r.response_code, data := d, clear_session := true }
        else
          .ok { response_code := r.response_code, data := d }
      | none =>
        .err { message := "request failed: unintelligible response."
               data := some r.data
               response_code := some r.response_code
               response_type := some r.response_type }
  else
    .err { message := "invalid response code"
           data := some r.data
           response_code := some r.response_code
           response_type := some r.response_type }

/-- Session adoption inside the fetch callback of Statement._run
(lines 416-420): a session output is adopted, otherwise a clear_session
output drops the stored token, otherwise the token is kept. -/
def applySession (current : Option String) (session : Option String)
    (clear_session : Bool) : Option String :=
  match session with
  | some s => some s
  | none => if clear_session then none else current

/-- An HTTP request descriptor: the method and path handed to the request
path of the client. -/
structure HttpReq where
  method : String
  path : String
deriving DecidableEq

/-- The request issued by Client.kill (line 227): DELETE against the query
endpoint for the given query id. -/
def killRequest (query_id : String) : HttpReq :=
  { method := "DELETE", path := "/v1/query/" ++ query_id }

/-- Client.kill (lines 226-229): await the DELETE request and return with
a bare return statement, so the awaited call resolves with undefined (here
none) and the response payload is discarded; a request error rejects. -/
def clientKill (requestResult : Except prestoError OkOutput) :
    Except prestoError (Option JsonVal) :=
  match requestResult with
  | .error e => .error e
  | .ok _ => .ok none

/-- Everything Statement.cancel determines: the flag and next-uri updates,
the request it causes Client.kill to issue, and the value the returned
promise settles with. -/
structure CancelOutcome where
  cancelled : Bool
  nextUri : Option String
  request : HttpReq
  result : Except prestoError (Option JsonVal)

/-- Statement.cancel (lines 352-356): set the cancelled flag, clear the
stored next uri, and return await client.kill(query_id).  killResult is
the outcome of the DELETE request as classified by makeRequest. -/
def statementCancel (query_id : String)
    (killResult : Except prestoError OkOutput) : CancelOutcome :=
  { cancelled := true
    nextUri := none
    request := killRequest query_id
    result := clientKill killResult }

/-- The JavaScript return value of makeRequest (lines 60-115): the function
body has no top-level return statement (the promise chain is an expression
statement), so a caller receives undefined.  The internal request closure
stored under s_request (lines 161-177) returns exactly this value.  none
models undefined. -/
def sRequestReturnValue : Option Unit := none

/-- The event emitted by the exhaustion tail of Statement._run. -/
inductive FinishEvent where
  | success (stats : JsonVal)
  | successWithInfo (stats : JsonVal) (info : JsonVal)
  | successWithInfoError (stats : JsonVal)
  | thrownTypeError

/-- The exhaustion tail of Statement._run (lines 550-562).  When fetchInfo
is set and the final response carries an infoUri, line 553 evaluates
client[s_request](opts).then - a member access on sRequestReturnValue,
which is undefined, so a TypeError is thrown and no success event is
emitted.  Were a promise returned, the fulfilled handler would emit
success with stats and info and the rejected handler would emit success
with the info component replaced by the error; without fetchInfo (or
without an infoUri) line 559 emits success with just the stats.
infoResult is the outcome the info fetch would have had. -/
def runFinish (fetchInfo : Bool) (infoUri : Option String) (stats : JsonVal)
    (infoResult : Except prestoError JsonVal) : FinishEvent :=
  if fetchInfo ∧ infoUri.isSome then
    match sRequestReturnValue with
    | some _ =>
      match infoResult with
      | .ok info => .successWithInfo stats info
      | .error _ => .successWithInfoError stats
    | none => .thrownTypeError
  else
    .success stats

/-- The mutable fields of a Statement that drive its fetch loop, together
with instrumentation of its observable behaviour.  isRunning, cancelled
and eof are the fields stored under s_isRunning, s_cancelled and s_EOF;
nextUri is s_nextUri; fetchInfo is the constructor flag.  inFlight counts
the HTTP fetches the statement has issued and not yet received (a counter
so that issuing a second concurrent fetch would be visible); timerPending
records a scheduled setTimeout continuation of _run (line 491);
pushedRows counts the push calls delivering data (header line, CSV block
or object-mode record) and pushedNull the push(null) end markers; errored
records an emitted error event and crashed a TypeError thrown inside the
callback (see runFinish). -/
structure StmtState where
  isRunning : Bool
  cancelled : Bool
  eof : Bool
  nextUri : Option String
  fetchInfo : Bool
  inFlight : Nat
  timerPending : Bool
  pushedRows : Nat
  pushedNull : Nat
  errored : Bool
  crashed : Bool
deriving DecidableEq

/-- The statement as constructed (lines 319-329) from the initial uri of
the execute response: no fetch outstanding, no flags set, no output
produced. -/
def mkInit (initialUri : String) (fetchInfo : Bool) : StmtState :=
  { isRunning := false
    cancelled := false
    eof := false
    nextUri := some initialUri
    fetchInfo := fetchInfo
    inFlight := 0
    timerPending := false
    pushedRows := 0
    pushedNull := 0
    errored := false
    crashed := false }

/-- Classification of what the fetch callback receives, covering the four
branches of Statement._run: a transport error (line 408), a response whose
body carries an error field (line 459), a pre-execution state with no data
yet (lines 486-492), or a data-bearing response with some number of push
calls, the flow-control answer of the final push, an optional continuation
uri and whether an infoUri is present (lines 493-563). -/
inductive RespKind where
  | transportErr
  | dataErr
  | poll (next : String)
  | rows (items : Nat) (canPush : Bool) (next : Option String) (hasInfoUri : Bool)
deriving DecidableEq

/-- Events that drive a statement: a consumer pull (_read, line 360), a
call to cancel (lines 352-355; the kill RPC itself is out of band), the
poll timer firing (line 491), and the arrival of a fetch result at the
callback of line 407.  A JavaScript callback runs to completion before any
other event, so each event is one atomic step. -/
inductive Ev where
  | pull
  | cancelEvt
  | timerFire
  | respond (r : RespKind)
deriving DecidableEq

/-- The end-of-file guard shared by _statementCancelled (lines 386-389)
and the exhaustion branch (lines 546-549): when eof is not yet set, set it
and push null. -/
def markEof (s : StmtState) : StmtState :=
  if s.eof then s else { s with eof := true, pushedNull := s.pushedNull + 1 }

/-- The cancelled exit of _run (lines 403-406 and 412-415): signal eof if
needed and drop the running flag without touching anything else. -/
def haltCancelled (s : StmtState) : StmtState :=
  { markEof s with isRunning := false }

/-- Statement._run up to the fetch (lines 397-407): raise the running
flag; if cancellation was requested stop before any request is made,
otherwise issue the fetch against the stored next uri. -/
def runBody (s0 : StmtState) : StmtState :=
  let s := { s0 with isRunning := true }
  if s.cancelled then haltCancelled s
  else { s with inFlight := s.inFlight + 1 }

/-- The fetch callback of Statement._run (lines 407-564), entered when a
fetch result arrives (the outstanding fetch is consumed by stepFn before
this runs).  A transport error emits the error and returns with the
running flag still raised (lines 408-410).  Otherwise cancellation is
re-checked and the whole payload discarded if requested (lines 412-415).
A body error emits the error, runs this.cancel() - which sets the
cancelled flag and clears the next uri - and drops the running flag
(lines 459-471).  A pre-execution response with no data stores the next
uri and schedules the poll timer, leaving the running flag raised
(lines 486-492).  A data-bearing response pushes its items; with a
continuation uri it either re-enters _run at once (canPush) or drops the
running flag under back-pressure (lines 535-542); without one it signals
eof, and then either crashes on the info fetch (see runFinish) or emits
success and drops the running flag (lines 543-563). -/
def respondBody (s : StmtState) (r : RespKind) : StmtState :=
  match r with
  | .transportErr => { s with errored := true }
  | .dataErr =>
    if s.cancelled then haltCancelled s
    else { s with errored := true, cancelled := true, nextUri := none, isRunning := false }
  | .poll next =>
    if s.cancelled then haltCancelled s
    else { s with nextUri := some next, timerPending := true }
  | .rows items canPush next hasInfoUri =>
    if s.cancelled then haltCancelled s
    else
      let s1 := { s with pushedRows := s.pushedRows + items }
      match next with
      | some u =>
        let s2 := { s1 with nextUri := some u }
        if canPush then runBody s2 else { s2 with isRunning := false }
      | none =>
        let s3 := markEof s1
        if s3.fetchInfo && hasInfoUri then { s3 with crashed := true }
        else { s3 with isRunning := false }

/-- One step of the statement.  pull is only delivered while the stream is
alive (Readable does not call _read after push(null), after an error with
autoDestroy, or after a crash) and runs _run exactly when the running flag
is down (lines 360-364).  cancelEvt is the synchronous part of cancel
(lines 353-354).  timerFire consumes the pending poll continuation and
re-enters _run.  respond consumes an outstanding fetch and runs the
callback. -/
def stepFn (s : StmtState) (e : Ev) : Option StmtState :=
  match e with
  | .pull =>
    if s.eof || s.errored || s.crashed then none
    else if s.isRunning then some s
    else some (runBody s)
  | .cancelEvt => some { s with cancelled := true, nextUri := none }
  | .timerFire =>
    if s.timerPending then some (runBody { s with timerPending := false }) else none
  | .respond r =>
    match s.inFlight with
    | 0 => none
    | n + 1 => some (respondBody { s with inFlight := n } r)

/-- Applying a list of events in order, failing if any event is not
enabled. -/
def stepSeq (s : StmtState) : List Ev → Option StmtState
  | [] => some s
  | e :: es =>
    match stepFn s e with
    | some s1 => stepSeq s1 es
    | none => none

/-- The states a statement can reach from construction. -/
inductive Reachable : StmtState → Prop where
  | init (uri : String) (fi : Bool) : Reachable (mkInit uri fi)
  | step {s : StmtState} {e : Ev} {s1 : StmtState} :
      Reachable s → stepFn s e = some s1 → Reachable s1

/-- The inductive invariant of the fetch loop: at most one fetch is
outstanding; an outstanding fetch or a pending poll timer implies the
running flag is raised, and the two never coexist; the end marker has been
pushed exactly when eof is set; and once eof is set no fetch is
outstanding and no timer is pending. -/
def StmtInv (s : StmtState) : Prop :=
  s.inFlight ≤ 1 ∧
  (s.inFlight = 1 → s.isRunning = true) ∧
  (s.timerPending = true → s.isRunning = true) ∧
  ¬(s.inFlight = 1 ∧ s.timerPending = true) ∧
  s.pushedNull = (if s.eof then 1 else 0) ∧
  (s.eof = true → s.inFlight = 0 ∧ s.timerPending = false)

instance (s : StmtState) : Decidable (StmtInv s) := by
  unfold StmtInv; infer_instance

/-- A parse stub standing for jsonParser.parse applied to the body of a
session-mutating response: the parsed object carries the updateType field
that the presto protocol sets for SET SESSION statements. -/
def sessionParseStub : String → Option JsonVal :=
  fun _ => some (JsonVal.obj [("updateType", JsonVal.str "SET SESSION")])

/-- A 200 application/json response that carries a set-session response
header. -/
def sessionResponse : RawResponse :=
  { response_code := 200
    data := "session-update-body"
    response_type := some "application/json"
    session := some "key=value"
    clear_session := none }

/-- A freshly constructed statement on its initial uri, without info
fetching. -/
def exInit : StmtState := mkInit "/v1/statement/q1/1" false

/-- The statement after the first consumer pull: _run has raised the
running flag and issued the first fetch. -/
def exAfterPull : StmtState := runBody exInit

/-- The statement after that fetch returned a pre-execution response with
no data: the poll timer is pending and no fetch is outstanding. -/
def exPolling : StmtState :=
  respondBody { exAfterPull with inFlight := 0 } (RespKind.poll "/v1/statement/q1/2")

/-- The statement after cancel was invoked while the first fetch was in
flight. -/
def exCancelled : StmtState := { exAfterPull with cancelled := true, nextUri := none }

/-- The cancelled statement after the in-flight fetch returned a response
carrying two rows and a continuation uri. -/
def exCancelResponded : StmtState :=
  respondBody { exCancelled with inFlight := 0 }
    (RespKind.rows 2 true (some "/v1/statement/q1/2") false)

theorem stmtInv_mkInit (uri : String) (fi : Bool) : StmtInv (mkInit uri fi) := by
  simp [StmtInv, mkInit]

theorem stmtInv_runBody {s : StmtState} (hIn : s.inFlight = 0)
    (hT : s.timerPending = false) (hE : s.eof = false) (hN : s.pushedNull = 0) :
    StmtInv (runBody s) := by
  unfold runBody haltCancelled markEof StmtInv
  by_cases hc : s.cancelled <;> simp [hc, hIn, hT, hE, hN]

theorem stmtInv_respondBody {s : StmtState} (r : RespKind) (hIn : s.inFlight = 0)
    (hT : s.timerPending = false) (hE : s.eof = false) (hN : s.pushedNull = 0)
    (hR : s.isRunning = true) : StmtInv (respondBody s r) := by
  cases r with
  | transportErr =>
    unfold respondBody StmtInv
    simp [hIn, hT, hE, hN]
  | dataErr =>
    unfold respondBody haltCancelled markEof StmtInv
    by_cases hc : s.cancelled <;> simp [hc, hIn, hT, hE, hN]
  | poll next =>
    unfold respondBody haltCancelled markEof StmtInv
    by_cases hc : s.cancelled <;> simp [hc, hIn, hT, hE, hN, hR]
  | rows items canPush next hasInfoUri =>
    unfold respondBody
    by_cases hc : s.cancelled
    · unfold haltCancelled markEof StmtInv
      simp [hc, hIn, hT, hE, hN]
    · cases next with
      | some u =>
        cases canPush with
        | true =>
          simp only [hc, Bool.false_eq_true, if_false, if_true]
          exact stmtInv_runBody hIn hT hE hN
        | false =>
          unfold StmtInv
          simp [hc, hIn, hT, hE, hN]
      | none =>
        unfold markEof StmtInv
        by_cases hinfo : s.fetchInfo && hasInfoUri <;> simp [hc, hinfo, hIn, hT, hE, hN]

theorem stmtInv_step {s : StmtState} {e : Ev} {s1 : StmtState}
    (hInv : StmtInv s) (h : stepFn s e = some s1) : StmtInv s1 := by
  obtain ⟨h1, h2, h3, h4, h5, h6⟩ := hInv
  cases e with
  | pull =>
    unfold stepFn at h
    by_cases hdead : (s.eof || s.errored || s.crashed) = true
    · simp [hdead] at h
    · simp only [hdead, if_false, Bool.false_eq_true] at h
      have hE : s.eof = false := by
        cases he : s.eof
        · rfl
        · simp [he] at hdead
      by_cases hr : s.isRunning = true
      · simp only [hr, if_true] at h
        cases h
        exact ⟨h1, h2, h3, h4, h5, h6⟩
      · have hr0 : s.isRunning = false := by
          cases hrr : s.isRunning
          · rfl
          · exact absurd hrr hr
        simp only [hr0, Bool.false_eq_true, if_false] at h
        cases h
        have hIn : s.inFlight = 0 := by
          rcases Nat.lt_or_ge s.inFlight 1 with hh | hh
          · omega
          · have : s.inFlight = 1 := by omega
            rw [hr0] at h2
            exact absurd (h2 this) (by simp)
        have hT : s.timerPending = false := by
          cases ht : s.timerPending
          · rfl
          · rw [hr0] at h3
            exact absurd (h3 ht) (by simp)
        have hN : s.pushedNull = 0 := by rw [h5, hE]; rfl
        exact stmtInv_runBody hIn hT hE hN
  | cancelEvt =>
    unfold stepFn at h
    cases h
    exact ⟨h1, h2, h3, h4, h5, h6⟩
  | timerFire =>
    unfold stepFn at h
    by_cases ht : s.timerPending = true
    · simp only [ht, if_true] at h
      cases h
      have hIn : s.inFlight = 0 := by
        rcases Nat.lt_or_ge s.inFlight 1 with hh | hh
        · omega
        · have h11 : s.inFlight = 1 := by omega
          exact absurd ⟨h11, ht⟩ h4
      have hE : s.eof = false := by
        cases he : s.eof
        · rfl
        · exact absurd ht (by simp [(h6 he).2])
      have hN : s.pushedNull = 0 := by rw [h5, hE]; rfl
      exact stmtInv_runBody (s := { s with timerPending := false }) hIn rfl hE hN
    · simp [ht] at h
  | respond r =>
    unfold stepFn at h
    cases hf : s.inFlight with
    | zero => rw [hf] at h; cases h
    | succ n =>
      rw [hf] at h
      cases h
      have hn : n = 0 := by rw [hf] at h1; omega
      subst hn
      have hR : s.isRunning = true := h2 (by rw [hf])
      have hT : s.timerPending = false := by
        cases ht : s.timerPending
        · rfl
        · exact absurd ⟨by rw [hf], ht⟩ h4
      have hE : s.eof = false := by
        cases he : s.eof
        · rfl
        · have := (h6 he).1
          rw [hf] at this
          cases this
      have hN : s.pushedNull = 0 := by rw [h5, hE]; rfl
      exact stmtInv_respondBody (s := { s with inFlight := 0 }) r rfl hT hE hN hR

theorem reachable_inv {s : StmtState} (h : Reachable s) : StmtInv s := by
  induction h with
  | init uri fi => exact stmtInv_mkInit uri fi
  | step _ hstep ih => exact stmtInv_step ih hstep

/-- C1: the claim states that for the column list a, a, b the stored list
after deduplication is a, a_1, b, the first occurrence being left
untouched.  It is not: the renaming pass of Statement._run (lines 507-513)
renames every occurrence of a duplicated name, the first included. -/
theorem c1_counterexample : dedupColumns ["a", "a", "b"] ≠ ["a", "a_1", "b"] := by
  decide

/-- C1 (amended): in structured-record mode duplicate column names are
de-duplicated in place such that for a, a, b the stored list is a_1, a_2,
b - every occurrence of a recurring name, the first included, receives the
suffixes _1, _2, ... computed per duplicate name - and every subsequently
produced record is keyed by the deduplicated names. -/
theorem c1_amended (v1 v2 v3 : JSVal) :
    dedupColumns ["a", "a", "b"] = ["a_1", "a_2", "b"] ∧
    buildRecord (dedupColumns ["a", "a", "b"]) [v1, v2, v3] =
      [("a_1", v1), ("a_2", v2), ("b", v3)] := by
  exact ⟨by decide, rfl⟩

/-- C2: the claim states a 503 response is never surfaced as an error and
is retried indefinitely.  The code is wrong: the retry test reads the
nonexistent field response.code (see retry503Check), so a 503 falls into
the error branch and is surfaced as a prestoError with message invalid
response code. -/
theorem c2_code_bug :
    makeRequestHandle (fun _ => none)
      { response_code := 503, data := "Service Unavailable",
        response_type := some "text/html", session := none, clear_session := none } =
      RequestOutcome.err
        { message := "invalid response code", data := some "Service Unavailable",
          response_code := some 503, response_type := some (some "text/html") } ∧
    retry503Check
      { response_code := 503, data := "Service Unavailable",
        response_type := some "text/html", session := none, clear_session := none } = false :=
  ⟨rfl, rfl⟩

/-- C3: the claim states a set-session response header is adopted and a
stored token is echoed on subsequent requests.  The code is wrong: the
gate on line 96 reads updateType off the raw body string (see
updateTypeCheck), so even a 200 application/json response carrying a
set-session header produces an output with no session and no
clear_session, and the adoption step of Statement._run therefore leaves
the stored token unchanged. -/
theorem c3_code_bug :
    makeRequestHandle sessionParseStub sessionResponse =
      RequestOutcome.ok
        { response_code := 200,
          data := JsonVal.obj [("updateType", JsonVal.str "SET SESSION")],
          session := none, clear_session := false } ∧
    applySession (some "old=token") none false = some "old=token" :=
  ⟨rfl, rfl⟩

/-- C4: the claim states is_running is true only while a fetch initiated
by the statement is outstanding.  It is not: after a pull and a
pre-execution response, the statement sits in the poll-interval wait with
is_running still true and no fetch outstanding. -/
theorem c4_counterexample :
    stepFn exInit Ev.pull = some exAfterPull ∧
    stepFn exAfterPull (Ev.respond (RespKind.poll "/v1/statement/q1/2")) = some exPolling ∧
    exPolling.isRunning = true ∧ exPolling.inFlight = 0 ∧
    exPolling.eof = false ∧ exPolling.errored = false ∧ exPolling.crashed = false := by
  decide

/-- C4 (amended): for every reachable statement state at most one fetch is
outstanding, is_running is true whenever a fetch is outstanding, and a
consumer pull while is_running is true starts nothing (it either is not
delivered or leaves the state unchanged); however is_running may remain
true while no fetch is outstanding, e.g. during the poll-interval wait. -/
theorem c4_amended (s : StmtState) (h : Reachable s) :
    s.inFlight ≤ 1 ∧ (s.inFlight = 1 → s.isRunning = true) ∧
    (s.isRunning = true →
      stepFn s Ev.pull = none ∨ stepFn s Ev.pull = some s) := by
  obtain ⟨h1, h2, _, _, _, _⟩ := reachable_inv h
  refine ⟨h1, h2, ?_⟩
  intro hr
  unfold stepFn
  by_cases hdead : (s.eof || s.errored || s.crashed) = true
  · left; simp [hdead]
  · right; simp [hdead, hr]

theorem c4_witness :
    exAfterPull.inFlight ≤ 1 ∧ (exAfterPull.inFlight = 1 → exAfterPull.isRunning = true) ∧
    (exAfterPull.isRunning = true →
      stepFn exAfterPull Ev.pull = none ∨ stepFn exAfterPull Ev.pull = some exAfterPull) :=
  c4_amended exAfterPull
    (Reachable.step (e := Ev.pull) (Reachable.init "/v1/statement/q1/1" false) rfl)

/-- C5: in every reachable statement state the end marker has been pushed
exactly once if end_of_stream is set and not at all otherwise (so the flag
transitions false to true exactly once and the null push is produced
exactly once), and once the flag is set a step changes neither the data
items pushed nor the end markers pushed. -/
theorem c5_confirmed (s : StmtState) (e : Ev) (s1 : StmtState) (h : Reachable s)
    (hstep : stepFn s e = some s1) :
    s.pushedNull = (if s.eof then 1 else 0) ∧
    s1.pushedNull = (if s1.eof then 1 else 0) ∧
    s1.pushedNull ≤ 1 ∧
    (s.eof = true →
      s1.eof = true ∧ s1.pushedRows = s.pushedRows ∧ s1.pushedNull = s.pushedNull) := by
  obtain ⟨_, _, _, _, h5, h6⟩ := reachable_inv h
  obtain ⟨_, _, _, _, h5a, _⟩ := reachable_inv (Reachable.step h hstep)
  refine ⟨h5, h5a, ?_, ?_⟩
  · rw [h5a]; split <;> omega
  · intro he
    obtain ⟨hIn, hT⟩ := h6 he
    cases e with
    | pull =>
      unfold stepFn at hstep
      rw [he] at hstep
      simp at hstep
    | cancelEvt =>
      unfold stepFn at hstep
      cases hstep
      exact ⟨he, rfl, rfl⟩
    | timerFire =>
      unfold stepFn at hstep
      rw [hT] at hstep
      simp at hstep
    | respond r =>
      unfold stepFn at hstep
      rw [hIn] at hstep
      simp at hstep

theorem c5_witness :
    exInit.pushedNull = (if exInit.eof then 1 else 0) ∧
    exAfterPull.pushedNull = (if exAfterPull.eof then 1 else 0) ∧
    exAfterPull.pushedNull ≤ 1 ∧
    (exInit.eof = true →
      exAfterPull.eof = true ∧ exAfterPull.pushedRows = exInit.pushedRows ∧
        exAfterPull.pushedNull = exInit.pushedNull) :=
  c5_confirmed exInit Ev.pull exAfterPull (Reachable.init "/v1/statement/q1/1" false) rfl

/-- C6: if cancel was invoked while a fetch is in flight then, when that
fetch returns a response (any non-transport-error outcome), no item of its
payload is pushed, the stored next uri is untouched, exactly one end
marker has then been produced, and no further fetch is issued; moreover
the cancellation flag is also checked before issuing a fetch: entering
_run on a cancelled statement issues none. -/
theorem c6_confirmed (s : StmtState) (r : RespKind) (s1 : StmtState)
    (h : Reachable s) (hc : s.cancelled = true) (hr : r ≠ RespKind.transportErr)
    (hstep : stepFn s (Ev.respond r) = some s1) :
    s1.pushedRows = s.pushedRows ∧ s1.eof = true ∧ s1.pushedNull = 1 ∧
    s1.inFlight = 0 ∧ s1.nextUri = s.nextUri ∧
    (runBody s).inFlight = s.inFlight := by
  obtain ⟨h1, h2, h3, h4, h5, h6⟩ := reachable_inv h
  unfold stepFn at hstep
  cases hf : s.inFlight with
  | zero => rw [hf] at hstep; simp at hstep
  | succ n =>
    rw [hf] at hstep
    simp only [Option.some.injEq] at hstep
    have hE : s.eof = false := by
      cases he : s.eof
      · rfl
      · have := (h6 he).1
        rw [hf] at this
        cases this
    have hN : s.pushedNull = 0 := by rw [h5, hE]; rfl
    have hn : n = 0 := by rw [hf] at h1; omega
    subst hn
    subst hstep
    cases r with
    | transportErr => exact absurd rfl hr
    | dataErr =>
      simp [respondBody, haltCancelled, markEof, runBody, hc, hE, hN, hf]
    | poll next =>
      simp [respondBody, haltCancelled, markEof, runBody, hc, hE, hN, hf]
    | rows items canPush next hasInfoUri =>
      simp [respondBody, haltCancelled, markEof, runBody, hc, hE, hN, hf]

theorem c6_witness :
    exCancelResponded.pushedRows = exCancelled.pushedRows ∧
    exCancelResponded.eof = true ∧ exCancelResponded.pushedNull = 1 ∧
    exCancelResponded.inFlight = 0 ∧ exCancelResponded.nextUri = exCancelled.nextUri ∧
    (runBody exCancelled).inFlight = exCancelled.inFlight :=
  c6_confirmed exCancelled (RespKind.rows 2 true (some "/v1/statement/q1/2") false)
    exCancelResponded
    (Reachable.step (e := Ev.cancelEvt)
      (Reachable.step (e := Ev.pull) (Reachable.init "/v1/statement/q1/1" false) rfl) rfl)
    rfl (by decide) rfl

/-- C7: delimited-text encoding of a cell, as convertToCSV performs it: a
numeric cell is rendered bare, a null cell as an empty quoted string, a
structured cell is serialized with the pluggable JSON serializer and
quoted with inner double quotes doubled, a string cell is quoted with
inner double quotes doubled; in particular 42 renders unquoted and the
string containing He said "hi" renders with its quotes doubled inside
enclosing quotes. -/
theorem c7_confirmed (stringify : JsonVal → String) (n : Int) (s : String) (o : JsonVal) :
    convertToCSV (JSVal.num n) stringify = toString n ∧
    convertToCSV JSVal.null stringify = "\"\"" ∧
    convertToCSV (JSVal.obj o) stringify = "\"" ++ csvEscape (stringify o) ++ "\"" ∧
    convertToCSV (JSVal.str s) stringify = "\"" ++ csvEscape s ++ "\"" ∧
    convertToCSV (JSVal.num 42) stringify = "42" ∧
    convertToCSV (JSVal.str "He said \"hi\"") stringify = "\"He said \"\"hi\"\"\"" :=
  ⟨rfl, rfl, rfl, rfl, rfl, rfl⟩

/-- C8: the claim states cancel returns the server's response payload on
success.  It does not: Client.kill discards the payload with a bare
return, so cancel resolves with undefined (none), which differs from the
payload the DELETE produced (the empty object of the classification). -/
theorem c8_counterexample :
    (statementCancel "20140120_032523_00000_32v8g"
        (Except.ok { response_code := 204, data := JsonVal.obj [] })).result =
      Except.ok none ∧
    (Except.ok (none : Option JsonVal) : Except prestoError (Option JsonVal)) ≠
      Except.ok (some (JsonVal.obj [])) := by
  refine ⟨rfl, ?_⟩
  intro hcontra
  injection hcontra with hx
  cases hx

/-- C8 (amended): cancel sets the cancellation flag, clears next_uri,
issues the remote kill RPC - DELETE against the query endpoint for this
statement's query id - resolves with undefined (no payload) on success,
and fails with the kill request's error when the remote kill does not
return a success status. -/
theorem c8_amended (q : String) (k : Except prestoError OkOutput) :
    (statementCancel q k).cancelled = true ∧
    (statementCancel q k).nextUri = none ∧
    (statementCancel q k).request = { method := "DELETE", path := "/v1/query/" ++ q } ∧
    (statementCancel q k).result = k.map (fun _ => (none : Option JsonVal)) := by
  refine ⟨rfl, rfl, rfl, ?_⟩
  cases k <;> rfl

/-- C9: the claim states that with info-fetching requested and an info uri
supplied one more GET is performed and success is always reported.  The
code is wrong: on that path line 553 invokes .then on the undefined return
value of the callback-style request helper, so a TypeError is thrown and
no success event is emitted at all; without info-fetching the plain
success event is emitted. -/
theorem c9_code_bug :
    runFinish true (some "/v1/query/20140120_032523_00000_32v8g")
      (JsonVal.obj []) (Except.ok (JsonVal.obj [])) = FinishEvent.thrownTypeError ∧
    runFinish false none (JsonVal.obj []) (Except.ok (JsonVal.obj [])) =
      FinishEvent.success (JsonVal.obj []) :=
  ⟨rfl, rfl⟩

/-- C10: classification of a buffered response by makeRequest: every
response with status below 300 whose content type is not application/json
or whose body is shorter than two characters resolves successfully with an
empty-object payload, and every response with status 300 or above is
reported as a prestoError with message invalid response code carrying the
status code, raw body and content type. -/
theorem c10_confirmed (parse : String → Option JsonVal) (r : RawResponse) :
    (r.response_code < 300 ∧
        (r.response_type ≠ some "application/json" ∨ r.data.length < 2) →
      makeRequestHandle parse r =
        RequestOutcome.ok { response_code := r.response_code, data := JsonVal.obj [] }) ∧
    (300 ≤ r.response_code →
      makeRequestHandle parse r =
        RequestOutcome.err
          { message := "invalid response code", data := some r.data,
            response_code := some r.response_code,
            response_type := some r.response_type }) := by
  constructor
  · rintro ⟨hlt, hty⟩
    unfold makeRequestHandle retry503Check
    simp [hlt, hty]
  · intro hge
    have hnlt : ¬(r.response_code < 300) := by omega
    unfold makeRequestHandle retry503Check
    simp [hnlt]

theorem c10_witness :
    makeRequestHandle (fun _ => none)
      { response_code := 204, data := "", response_type := none,
        session := none, clear_session := none } =
      RequestOutcome.ok { response_code := 204, data := JsonVal.obj [] } ∧
    makeRequestHandle (fun _ => none)
      { response_code := 500, data := "oops", response_type := some "text/plain",
        session := none, clear_session := none } =
      RequestOutcome.err
        { message := "invalid response code", data := some "oops",
          response_code := some 500, response_type := some (some "text/plain") } :=
  ⟨(c10_confirmed (fun _ => none) _).1 ⟨by decide, Or.inl (by decide)⟩,
   (c10_confirmed (fun _ => none) _).2 (by decide)⟩


